import Mathlib

/-!
Shallow embedding of the `sator-anchor` on-ledger program
(`src/packages/sator-anchor/programs/sator-anchor/src`): the `IncidentAnchor`
account, its two hashing helpers (`compute_bundle_root`,
`compute_new_event_head`) and the four instruction handlers
(`create_anchor`, `append_event`, `update_artifacts`, `approve_anchor`),
together with theorems settling the specification claims.

Modelling conventions:
* SHA-256 digests are modelled symbolically as a free term algebra `Hash32`:
  `raw n` is an opaque externally supplied 32-byte value, `sha2 a b` is
  SHA-256 over the 64-byte concatenation `a ‖ b`, and `sha6 a b c d e f` is
  SHA-256 over the 192-byte concatenation of six digests. Constructor
  injectivity and distinctness model collision resistance of the digest
  primitive; all inputs to the hash function in this program are fixed-width
  32-byte blocks, so concatenation is unambiguous.
* `Pubkey` is modelled as `Nat`, `u64`/`u32`/`u8` as `Nat` with explicit
  range checks where the code performs them (`checked_add` on the `u32`
  event counter), `i64` timestamps as `Int`, and the `String` packet URI as
  its byte sequence `List Nat` (Rust `String::len` counts bytes).
* Each handler is embedded in Rust statement order, returning the in-memory
  account state at the point the handler returns together with an optional
  error and the emitted notification payloads (`RawOutcome`).  The Anchor
  account constraint `has_one = operator` is an authorization check the
  framework runs before the handler body; it is embedded as an explicit
  guard in the `_ix` wrappers.  The runtime commits account mutations only
  on success: `runStep` discards the in-memory state and emits nothing when
  the instruction errors, which is the observable transaction semantics.
-/

namespace SatorOps

/-- Symbolic 32-byte SHA-256 digest values (free term algebra; see module
docstring). -/
inductive Hash32 where
  | raw (id : Nat) : Hash32
  | sha2 (a b : Hash32) : Hash32
  | sha6 (a b c d e f : Hash32) : Hash32
deriving DecidableEq

/-- Error codes of the program (`errors.rs`, `SatorAnchorError`). -/
inductive SatorAnchorError where
  | Unauthorized
  | AnchorAlreadyExists
  | InvalidOperatorRole
  | PacketUriTooLong
  | EventCountOverflow
  | RequiresApproval
  | NotSupervisorOrAdmin
  | AlreadyApproved
  | InvalidHash
deriving DecidableEq

/-- The `IncidentAnchor` account (`state.rs`), field for field. -/
structure IncidentAnchor where
  operator : Nat
  incident_id : Nat
  incident_core_hash : Hash32
  evidence_set_hash : Hash32
  contradictions_hash : Hash32
  trust_receipt_hash : Hash32
  operator_decisions_hash : Hash32
  timeline_hash : Hash32
  bundle_root_hash : Hash32
  event_chain_head : Hash32
  event_count : Nat
  operator_role : Nat
  supervisor : Option Nat
  requires_approval : Bool
  approval_timestamp : Option Int
  packet_uri : List Nat
  created_at : Int
  updated_at : Int
  bump : Nat
deriving DecidableEq

/-- Notification payloads (`events.rs`): `AnchorCreated`, `EventAppended`,
`ArtifactsUpdated`, `AnchorApproved`. -/
inductive AnchorEvent where
  | AnchorCreated (incident_id : Nat) (operator : Nat) (operator_role : Nat)
      (bundle_root_hash : Hash32) (packet_uri : List Nat) (timestamp : Int)
  | EventAppended (incident_id : Nat) (event_hash : Hash32)
      (new_chain_head : Hash32) (event_count : Nat) (timestamp : Int)
  | ArtifactsUpdated (incident_id : Nat) (operator : Nat)
      (old_bundle_root : Hash32) (new_bundle_root : Hash32)
      (packet_uri : List Nat) (timestamp : Int)
  | AnchorApproved (incident_id : Nat) (operator : Nat) (supervisor : Nat)
      (timestamp : Int)
deriving DecidableEq

instance {ε α : Type} [DecidableEq ε] [DecidableEq α] :
    DecidableEq (Except ε α) := fun x y =>
  match x, y with
  | .ok a, .ok b =>
    if h : a = b then isTrue (by rw [h])
    else isFalse (fun hc => h (Except.ok.inj hc))
  | .error a, .error b =>
    if h : a = b then isTrue (by rw [h])
    else isFalse (fun hc => h (Except.error.inj hc))
  | .ok _, .error _ => isFalse (fun hc => Except.noConfusion hc)
  | .error _, .ok _ => isFalse (fun hc => Except.noConfusion hc)

/-- `IncidentAnchor::MAX_URI_LEN` (`state.rs`). -/
def MAX_URI_LEN : Nat := 200

/-- `u32::MAX`, the bound enforced by `checked_add` on the event counter. -/
def UINT32_MAX : Nat := 4294967295

/-- Rust `u32::checked_add`: `none` when the sum would exceed `u32::MAX`. -/
def checked_add_u32 (a b : Nat) : Option Nat :=
  if a + b ≤ UINT32_MAX then some (a + b) else none

/-- `IncidentAnchor::compute_bundle_root` (`state.rs`): SHA-256 of the six
artifact hashes concatenated in the fixed order core, evidence,
contradictions, trust-receipt, decisions, timeline. -/
def IncidentAnchor.compute_bundle_root (a : IncidentAnchor) : Hash32 :=
  Hash32.sha6 a.incident_core_hash a.evidence_set_hash a.contradictions_hash
    a.trust_receipt_hash a.operator_decisions_hash a.timeline_hash

/-- `IncidentAnchor::compute_new_event_head` (`state.rs`):
SHA-256 of `event_chain_head ‖ event_hash`. -/
def IncidentAnchor.compute_new_event_head (a : IncidentAnchor)
    (event_hash : Hash32) : Hash32 :=
  Hash32.sha2 a.event_chain_head event_hash

/-- The spec's `ChainStep(prev_head, event_hash) = Digest(prev_head ‖
event_hash)` (§4.1), used to state the replay property. -/
def chainStep (prev_head event_hash : Hash32) : Hash32 :=
  Hash32.sha2 prev_head event_hash

/-- Result of running one instruction: the in-memory account state at the
point the handler returned, the error if any, and the notifications emitted. -/
structure RawOutcome where
  anchor : IncidentAnchor
  result : Option SatorAnchorError
  emitted : List AnchorEvent
deriving DecidableEq

/-- `create_anchor` handler (`instructions/create_anchor.rs`).  `caller` is
the `operator` signer, `now` is `Clock::get()?.unix_timestamp`, `bump` the
PDA bump supplied by the runtime. -/
def create_anchor (caller : Nat) (now : Int) (bump : Nat)
    (incident_id : Nat)
    (incident_core_hash evidence_set_hash contradictions_hash
      trust_receipt_hash operator_decisions_hash timeline_hash
      initial_event_hash : Hash32)
    (operator_role : Nat) (packet_uri : List Nat) :
    Except SatorAnchorError (IncidentAnchor × AnchorEvent) :=
  if ¬ packet_uri.length ≤ MAX_URI_LEN then .error .PacketUriTooLong
  else if ¬ operator_role ≤ 2 then .error .InvalidOperatorRole
  else
    let anchor0 : IncidentAnchor :=
      { operator := caller
        incident_id := incident_id
        incident_core_hash := incident_core_hash
        evidence_set_hash := evidence_set_hash
        contradictions_hash := contradictions_hash
        trust_receipt_hash := trust_receipt_hash
        operator_decisions_hash := operator_decisions_hash
        timeline_hash := timeline_hash
        bundle_root_hash := Hash32.raw 0
        event_chain_head := initial_event_hash
        event_count := 1
        operator_role := operator_role
        supervisor := none
        requires_approval := operator_role == 0
        approval_timestamp := none
        packet_uri := packet_uri
        created_at := now
        updated_at := now
        bump := bump }
    let anchor := { anchor0 with bundle_root_hash := anchor0.compute_bundle_root }
    .ok (anchor,
      .AnchorCreated incident_id caller operator_role anchor.bundle_root_hash
        packet_uri now)

/-- `append_event` handler body (`instructions/append_event.rs`), after the
account constraints have passed.  Mirrors Rust statement order: the chain
head is written before the `checked_add` overflow check. -/
def append_event_handler (now : Int) (event_hash : Hash32)
    (anchor : IncidentAnchor) : RawOutcome :=
  let new_head := anchor.compute_new_event_head event_hash
  let anchor1 := { anchor with event_chain_head := new_head }
  match checked_add_u32 anchor1.event_count 1 with
  | none => ⟨anchor1, some .EventCountOverflow, []⟩
  | some c =>
    let anchor2 := { anchor1 with event_count := c, updated_at := now }
    ⟨anchor2, none,
      [.EventAppended anchor2.incident_id event_hash new_head c now]⟩

/-- The `append_event` instruction: the `has_one = operator @ Unauthorized`
account constraint, then the handler body. -/
def append_event_ix (caller : Nat) (now : Int) (event_hash : Hash32)
    (anchor : IncidentAnchor) : RawOutcome :=
  if caller = anchor.operator then append_event_handler now event_hash anchor
  else ⟨anchor, some .Unauthorized, []⟩

/-- The mutation part of the `update_artifacts` handler
(`instructions/update_artifacts.rs`), after URI validation has passed.
Mirrors Rust statement order: the six optional field overwrites and the
optional URI overwrite, bundle-root recomputation, chain-head write, and
only then the `checked_add` overflow check. -/
def update_artifacts_body (caller : Nat) (now : Int)
    (incident_core_hash evidence_set_hash contradictions_hash
      trust_receipt_hash operator_decisions_hash timeline_hash :
      Option Hash32)
    (change_event_hash : Hash32) (packet_uri : Option (List Nat))
    (anchor : IncidentAnchor) : RawOutcome :=
    let old_bundle_root := anchor.bundle_root_hash
    let a1 := { anchor with
      incident_core_hash := incident_core_hash.getD anchor.incident_core_hash
      evidence_set_hash := evidence_set_hash.getD anchor.evidence_set_hash
      contradictions_hash :=
        contradictions_hash.getD anchor.contradictions_hash
      trust_receipt_hash := trust_receipt_hash.getD anchor.trust_receipt_hash
      operator_decisions_hash :=
        operator_decisions_hash.getD anchor.operator_decisions_hash
      timeline_hash := timeline_hash.getD anchor.timeline_hash
      packet_uri := packet_uri.getD anchor.packet_uri }
    let a2 := { a1 with bundle_root_hash := a1.compute_bundle_root }
    let new_head := a2.compute_new_event_head change_event_hash
    let a3 := { a2 with event_chain_head := new_head }
    match checked_add_u32 a3.event_count 1 with
    | none => ⟨a3, some .EventCountOverflow, []⟩
    | some c =>
      let a4 := { a3 with event_count := c, updated_at := now }
      ⟨a4, none,
        [.ArtifactsUpdated a4.incident_id caller old_bundle_root
          a4.bundle_root_hash a4.packet_uri now]⟩

/-- `update_artifacts` handler body, after the account constraints have
passed: the `if let Some(ref uri)` URI-length validation, then the mutation
sequence of `update_artifacts_body`. -/
def update_artifacts_handler (caller : Nat) (now : Int)
    (incident_core_hash evidence_set_hash contradictions_hash
      trust_receipt_hash operator_decisions_hash timeline_hash :
      Option Hash32)
    (change_event_hash : Hash32) (packet_uri : Option (List Nat))
    (anchor : IncidentAnchor) : RawOutcome :=
  match packet_uri with
  | some uri =>
    if ¬ uri.length ≤ MAX_URI_LEN then ⟨anchor, some .PacketUriTooLong, []⟩
    else
      update_artifacts_body caller now incident_core_hash evidence_set_hash
        contradictions_hash trust_receipt_hash operator_decisions_hash
        timeline_hash change_event_hash (some uri) anchor
  | none =>
    update_artifacts_body caller now incident_core_hash evidence_set_hash
      contradictions_hash trust_receipt_hash operator_decisions_hash
      timeline_hash change_event_hash none anchor

/-- The `update_artifacts` instruction: the `has_one = operator @
Unauthorized` account constraint, then the handler body. -/
def update_artifacts_ix (caller : Nat) (now : Int)
    (incident_core_hash evidence_set_hash contradictions_hash
      trust_receipt_hash operator_decisions_hash timeline_hash :
      Option Hash32)
    (change_event_hash : Hash32) (packet_uri : Option (List Nat))
    (anchor : IncidentAnchor) : RawOutcome :=
  if caller = anchor.operator then
    update_artifacts_handler caller now incident_core_hash evidence_set_hash
      contradictions_hash trust_receipt_hash operator_decisions_hash
      timeline_hash change_event_hash packet_uri anchor
  else ⟨anchor, some .Unauthorized, []⟩

/-- `approve_anchor` handler (`instructions/approve_anchor.rs`).  The
`ApproveAnchor` accounts place no `has_one` constraint on the approver, so
any signer reaches the handler body. -/
def approve_anchor_ix (caller : Nat) (now : Int)
    (anchor : IncidentAnchor) : RawOutcome :=
  if anchor.requires_approval then
    let a1 := { anchor with
      supervisor := some caller
      requires_approval := false
      approval_timestamp := some now
      updated_at := now }
    ⟨a1, none, [.AnchorApproved a1.incident_id a1.operator caller now]⟩
  else ⟨anchor, some .AlreadyApproved, []⟩

/-- One mutating instruction on an existing anchor. -/
inductive Transition where
  | appendEvent (caller : Nat) (now : Int) (event_hash : Hash32)
  | updateArtifacts (caller : Nat) (now : Int)
      (incident_core_hash evidence_set_hash contradictions_hash
        trust_receipt_hash operator_decisions_hash timeline_hash :
        Option Hash32)
      (change_event_hash : Hash32) (packet_uri : Option (List Nat))
  | approveAnchor (caller : Nat) (now : Int)
deriving DecidableEq

/-- Dispatch one instruction to its embedded handler. -/
def applyIx (t : Transition) (a : IncidentAnchor) : RawOutcome :=
  match t with
  | .appendEvent caller now event_hash => append_event_ix caller now event_hash a
  | .updateArtifacts caller now c e k r d l ch uri =>
    update_artifacts_ix caller now c e k r d l ch uri a
  | .approveAnchor caller now => approve_anchor_ix caller now a

/-- Committed transaction semantics: on error the runtime discards the
in-memory account mutations and nothing is emitted; on success the mutated
account is persisted and the notifications are emitted. -/
def runStep (t : Transition) (a : IncidentAnchor) :
    IncidentAnchor × List AnchorEvent × Option SatorAnchorError :=
  let o := applyIx t a
  match o.result with
  | some e => (a, [], some e)
  | none => (o.anchor, o.emitted, none)

/-- Run a sequence of instructions, requiring every one to succeed. -/
def run (a : IncidentAnchor) : List Transition → Option IncidentAnchor
  | [] => some a
  | t :: ts =>
    let o := applyIx t a
    match o.result with
    | some _ => none
    | none => run o.anchor ts

/-- The event hash an instruction folds into the chain: the appended event
hash for `append_event`, the mandatory change-event hash for
`update_artifacts`, none for `approve_anchor`. -/
def Transition.eventHash : Transition → Option Hash32
  | .appendEvent _ _ h => some h
  | .updateArtifacts _ _ _ _ _ _ _ _ ch _ => some ch
  | .approveAnchor _ _ => none

/-! ### Step-level characterization lemmas -/

theorem append_event_ix_ok (caller : Nat) (now : Int) (event_hash : Hash32)
    (a : IncidentAnchor) (hauth : caller = a.operator)
    (hcnt : a.event_count < UINT32_MAX) :
    append_event_ix caller now event_hash a =
      ⟨{ a with
          event_chain_head := Hash32.sha2 a.event_chain_head event_hash
          event_count := a.event_count + 1
          updated_at := now },
        none,
        [.EventAppended a.incident_id event_hash
          (Hash32.sha2 a.event_chain_head event_hash)
          (a.event_count + 1) now]⟩ := by
  have h1 : a.event_count + 1 ≤ UINT32_MAX := hcnt
  simp [append_event_ix, append_event_handler, checked_add_u32,
    IncidentAnchor.compute_new_event_head, hauth, h1]

theorem append_event_ix_overflow (caller : Nat) (now : Int)
    (event_hash : Hash32) (a : IncidentAnchor) (hauth : caller = a.operator)
    (hcnt : a.event_count = UINT32_MAX) :
    append_event_ix caller now event_hash a =
      ⟨{ a with event_chain_head := Hash32.sha2 a.event_chain_head event_hash },
        some .EventCountOverflow, []⟩ := by
  have h1 : ¬ a.event_count + 1 ≤ UINT32_MAX := by omega
  simp [append_event_ix, append_event_handler, checked_add_u32,
    IncidentAnchor.compute_new_event_head, hauth, h1]

theorem update_artifacts_ix_ok (caller : Nat) (now : Int)
    (c e k r d l : Option Hash32) (ch : Hash32) (uri : Option (List Nat))
    (a : IncidentAnchor) (hauth : caller = a.operator)
    (huri : ∀ u ∈ uri, u.length ≤ MAX_URI_LEN)
    (hcnt : a.event_count < UINT32_MAX) :
    update_artifacts_ix caller now c e k r d l ch uri a =
      ⟨{ a with
          incident_core_hash := c.getD a.incident_core_hash
          evidence_set_hash := e.getD a.evidence_set_hash
          contradictions_hash := k.getD a.contradictions_hash
          trust_receipt_hash := r.getD a.trust_receipt_hash
          operator_decisions_hash := d.getD a.operator_decisions_hash
          timeline_hash := l.getD a.timeline_hash
          packet_uri := uri.getD a.packet_uri
          bundle_root_hash := Hash32.sha6 (c.getD a.incident_core_hash)
            (e.getD a.evidence_set_hash) (k.getD a.contradictions_hash)
            (r.getD a.trust_receipt_hash) (d.getD a.operator_decisions_hash)
            (l.getD a.timeline_hash)
          event_chain_head := Hash32.sha2 a.event_chain_head ch
          event_count := a.event_count + 1
          updated_at := now },
        none,
        [.ArtifactsUpdated a.incident_id caller a.bundle_root_hash
          (Hash32.sha6 (c.getD a.incident_core_hash)
            (e.getD a.evidence_set_hash) (k.getD a.contradictions_hash)
            (r.getD a.trust_receipt_hash) (d.getD a.operator_decisions_hash)
            (l.getD a.timeline_hash))
          (uri.getD a.packet_uri) now]⟩ := by
  have h1 : a.event_count + 1 ≤ UINT32_MAX := hcnt
  cases uri with
  | none =>
    simp [update_artifacts_ix, update_artifacts_handler,
      update_artifacts_body, checked_add_u32,
      IncidentAnchor.compute_bundle_root,
      IncidentAnchor.compute_new_event_head, hauth, h1]
  | some u =>
    have h2 : u.length ≤ MAX_URI_LEN := huri u rfl
    simp [update_artifacts_ix, update_artifacts_handler,
      update_artifacts_body, checked_add_u32,
      IncidentAnchor.compute_bundle_root,
      IncidentAnchor.compute_new_event_head, hauth, h1, h2]

theorem update_artifacts_ix_overflow (caller : Nat) (now : Int)
    (c e k r d l : Option Hash32) (ch : Hash32) (uri : Option (List Nat))
    (a : IncidentAnchor) (hauth : caller = a.operator)
    (huri : ∀ u ∈ uri, u.length ≤ MAX_URI_LEN)
    (hcnt : a.event_count = UINT32_MAX) :
    update_artifacts_ix caller now c e k r d l ch uri a =
      ⟨{ a with
          incident_core_hash := c.getD a.incident_core_hash
          evidence_set_hash := e.getD a.evidence_set_hash
          contradictions_hash := k.getD a.contradictions_hash
          trust_receipt_hash := r.getD a.trust_receipt_hash
          operator_decisions_hash := d.getD a.operator_decisions_hash
          timeline_hash := l.getD a.timeline_hash
          packet_uri := uri.getD a.packet_uri
          bundle_root_hash := Hash32.sha6 (c.getD a.incident_core_hash)
            (e.getD a.evidence_set_hash) (k.getD a.contradictions_hash)
            (r.getD a.trust_receipt_hash) (d.getD a.operator_decisions_hash)
            (l.getD a.timeline_hash)
          event_chain_head := Hash32.sha2 a.event_chain_head ch },
        some .EventCountOverflow, []⟩ := by
  have h1 : ¬ a.event_count + 1 ≤ UINT32_MAX := by omega
  cases uri with
  | none =>
    simp [update_artifacts_ix, update_artifacts_handler,
      update_artifacts_body, checked_add_u32,
      IncidentAnchor.compute_bundle_root,
      IncidentAnchor.compute_new_event_head, hauth, h1]
  | some u =>
    have h2 : u.length ≤ MAX_URI_LEN := huri u rfl
    simp [update_artifacts_ix, update_artifacts_handler,
      update_artifacts_body, checked_add_u32,
      IncidentAnchor.compute_bundle_root,
      IncidentAnchor.compute_new_event_head, hauth, h1, h2]

theorem update_artifacts_ix_uriLong (caller : Nat) (now : Int)
    (c e k r d l : Option Hash32) (ch : Hash32) (u : List Nat)
    (a : IncidentAnchor) (hauth : caller = a.operator)
    (huri : ¬ u.length ≤ MAX_URI_LEN) :
    update_artifacts_ix caller now c e k r d l ch (some u) a =
      ⟨a, some .PacketUriTooLong, []⟩ := by
  simp [update_artifacts_ix, update_artifacts_handler, hauth, huri]

theorem approve_anchor_ix_ok (caller : Nat) (now : Int) (a : IncidentAnchor)
    (h : a.requires_approval = true) :
    approve_anchor_ix caller now a =
      ⟨{ a with
          supervisor := some caller
          requires_approval := false
          approval_timestamp := some now
          updated_at := now },
        none, [.AnchorApproved a.incident_id a.operator caller now]⟩ := by
  simp [approve_anchor_ix, h]

theorem approve_anchor_ix_already (caller : Nat) (now : Int)
    (a : IncidentAnchor) (h : a.requires_approval = false) :
    approve_anchor_ix caller now a = ⟨a, some .AlreadyApproved, []⟩ := by
  simp [approve_anchor_ix, h]

theorem append_event_ix_unauthorized (caller : Nat) (now : Int)
    (event_hash : Hash32) (a : IncidentAnchor)
    (hne : caller ≠ a.operator) :
    append_event_ix caller now event_hash a =
      ⟨a, some .Unauthorized, []⟩ := by
  simp [append_event_ix, hne]

theorem update_artifacts_ix_unauthorized (caller : Nat) (now : Int)
    (c e k r d l : Option Hash32) (ch : Hash32) (uri : Option (List Nat))
    (a : IncidentAnchor) (hne : caller ≠ a.operator) :
    update_artifacts_ix caller now c e k r d l ch uri a =
      ⟨a, some .Unauthorized, []⟩ := by
  simp [update_artifacts_ix, hne]

theorem create_anchor_inv (caller : Nat) (now : Int) (bump incident_id : Nat)
    (h1 h2 h3 h4 h5 h6 e0 : Hash32) (role : Nat) (uri : List Nat)
    (a : IncidentAnchor) (ev : AnchorEvent)
    (h : create_anchor caller now bump incident_id h1 h2 h3 h4 h5 h6 e0 role
      uri = .ok (a, ev)) :
    a = { operator := caller
          incident_id := incident_id
          incident_core_hash := h1
          evidence_set_hash := h2
          contradictions_hash := h3
          trust_receipt_hash := h4
          operator_decisions_hash := h5
          timeline_hash := h6
          bundle_root_hash := Hash32.sha6 h1 h2 h3 h4 h5 h6
          event_chain_head := e0
          event_count := 1
          operator_role := role
          supervisor := none
          requires_approval := role == 0
          approval_timestamp := none
          packet_uri := uri
          created_at := now
          updated_at := now
          bump := bump } ∧ uri.length ≤ MAX_URI_LEN ∧ role ≤ 2 := by
  unfold create_anchor at h
  split at h
  · simp at h
  · split at h
    · simp at h
    · next hu hr =>
      simp only [IncidentAnchor.compute_bundle_root, Except.ok.injEq,
        Prod.mk.injEq] at h
      exact ⟨h.1.symm, not_not.mp hu, not_not.mp hr⟩

/-! ### Invariant preservation across one successful instruction -/

theorem applyIx_ok_head (t : Transition) (a : IncidentAnchor) (h : Hash32)
    (hres : (applyIx t a).result = none) (hev : t.eventHash = some h) :
    (applyIx t a).anchor.event_chain_head =
      chainStep a.event_chain_head h := by
  cases t with
  | appendEvent caller now eh =>
    simp only [Transition.eventHash, Option.some.injEq] at hev
    subst hev
    by_cases hauth : caller = a.operator
    · by_cases hcnt : a.event_count + 1 ≤ UINT32_MAX <;>
        simp [applyIx, append_event_ix, append_event_handler,
          checked_add_u32, IncidentAnchor.compute_new_event_head, chainStep,
          hauth, hcnt] at hres ⊢
    · simp [applyIx, append_event_ix, hauth] at hres
  | updateArtifacts caller now c e k r d l ch uri =>
    simp only [Transition.eventHash, Option.some.injEq] at hev
    subst hev
    by_cases hauth : caller = a.operator
    · cases uri with
      | none =>
        by_cases hcnt : a.event_count + 1 ≤ UINT32_MAX <;>
          simp [applyIx, update_artifacts_ix, update_artifacts_handler,
            update_artifacts_body, checked_add_u32,
            IncidentAnchor.compute_new_event_head, chainStep, hauth,
            hcnt] at hres ⊢
      | some u =>
        by_cases hu : u.length ≤ MAX_URI_LEN
        · by_cases hcnt : a.event_count + 1 ≤ UINT32_MAX <;>
            simp [applyIx, update_artifacts_ix, update_artifacts_handler,
              update_artifacts_body, checked_add_u32,
              IncidentAnchor.compute_new_event_head, chainStep, hauth, hu,
              hcnt] at hres ⊢
        · simp [applyIx, update_artifacts_ix, update_artifacts_handler,
            hauth, hu] at hres
    · simp [applyIx, update_artifacts_ix, hauth] at hres
  | approveAnchor caller now =>
    simp [Transition.eventHash] at hev

theorem applyIx_ok_bundle (t : Transition) (a : IncidentAnchor)
    (hres : (applyIx t a).result = none)
    (hinv : a.bundle_root_hash = a.compute_bundle_root) :
    (applyIx t a).anchor.bundle_root_hash =
      (applyIx t a).anchor.compute_bundle_root := by
  cases t with
  | appendEvent caller now eh =>
    by_cases hauth : caller = a.operator
    · by_cases hcnt : a.event_count + 1 ≤ UINT32_MAX <;>
        simp [applyIx, append_event_ix, append_event_handler,
          checked_add_u32, IncidentAnchor.compute_bundle_root,
          hauth, hcnt, hinv] at hres ⊢
    · simp [applyIx, append_event_ix, hauth] at hres
  | updateArtifacts caller now c e k r d l ch uri =>
    by_cases hauth : caller = a.operator
    · cases uri with
      | none =>
        by_cases hcnt : a.event_count + 1 ≤ UINT32_MAX <;>
          simp [applyIx, update_artifacts_ix, update_artifacts_handler,
            update_artifacts_body, checked_add_u32,
            IncidentAnchor.compute_bundle_root, hauth, hcnt] at hres ⊢
      | some u =>
        by_cases hu : u.length ≤ MAX_URI_LEN
        · by_cases hcnt : a.event_count + 1 ≤ UINT32_MAX <;>
            simp [applyIx, update_artifacts_ix, update_artifacts_handler,
              update_artifacts_body, checked_add_u32,
              IncidentAnchor.compute_bundle_root, hauth, hu, hcnt]
              at hres ⊢
        · simp [applyIx, update_artifacts_ix, update_artifacts_handler,
            hauth, hu] at hres
    · simp [applyIx, update_artifacts_ix, hauth] at hres
  | approveAnchor caller now =>
    by_cases hreq : a.requires_approval = true
    · simpa [applyIx, approve_anchor_ix, hreq,
        IncidentAnchor.compute_bundle_root] using hinv
    · simp [applyIx, approve_anchor_ix, hreq] at hres

theorem applyIx_ok_unapproved (t : Transition) (a : IncidentAnchor)
    (hres : (applyIx t a).result = none)
    (hinv : a.requires_approval = false ∧ a.supervisor = none ∧
      a.approval_timestamp = none) :
    (applyIx t a).anchor.requires_approval = false ∧
      (applyIx t a).anchor.supervisor = none ∧
      (applyIx t a).anchor.approval_timestamp = none := by
  cases t with
  | appendEvent caller now eh =>
    by_cases hauth : caller = a.operator
    · by_cases hcnt : a.event_count + 1 ≤ UINT32_MAX <;>
        simp [applyIx, append_event_ix, append_event_handler,
          checked_add_u32, hauth, hcnt, hinv.1, hinv.2.1, hinv.2.2]
          at hres ⊢
    · simp [applyIx, append_event_ix, hauth] at hres
  | updateArtifacts caller now c e k r d l ch uri =>
    by_cases hauth : caller = a.operator
    · cases uri with
      | none =>
        by_cases hcnt : a.event_count + 1 ≤ UINT32_MAX <;>
          simp [applyIx, update_artifacts_ix, update_artifacts_handler,
            update_artifacts_body, checked_add_u32, hauth, hcnt,
            hinv.1, hinv.2.1, hinv.2.2] at hres ⊢
      | some u =>
        by_cases hu : u.length ≤ MAX_URI_LEN
        · by_cases hcnt : a.event_count + 1 ≤ UINT32_MAX <;>
            simp [applyIx, update_artifacts_ix, update_artifacts_handler,
              update_artifacts_body, checked_add_u32, hauth, hu, hcnt,
              hinv.1, hinv.2.1, hinv.2.2] at hres ⊢
        · simp [applyIx, update_artifacts_ix, update_artifacts_handler,
            hauth, hu] at hres
    · simp [applyIx, update_artifacts_ix, hauth] at hres
  | approveAnchor caller now =>
    simp [applyIx, approve_anchor_ix, hinv.1] at hres

/-! ### Run-level lemmas -/

theorem run_head_fold (ts : List Transition) (a a' : IncidentAnchor)
    (hmut : ∀ t ∈ ts, (Transition.eventHash t).isSome = true)
    (hrun : run a ts = some a') :
    a'.event_chain_head =
      (ts.filterMap Transition.eventHash).foldl chainStep
        a.event_chain_head := by
  induction ts generalizing a with
  | nil =>
    simp only [run, Option.some.injEq] at hrun
    subst hrun
    simp
  | cons t ts ih =>
    simp only [run] at hrun
    cases hres : (applyIx t a).result with
    | some e => rw [hres] at hrun; simp at hrun
    | none =>
      rw [hres] at hrun
      have hm := hmut t (List.mem_cons_self t ts)
      obtain ⟨h, hh⟩ := Option.isSome_iff_exists.mp hm
      have hhead := applyIx_ok_head t a h hres hh
      have ihh := ih (applyIx t a).anchor
        (fun t' ht' => hmut t' (List.mem_cons_of_mem t ht')) hrun
      rw [ihh, hhead]
      simp [List.filterMap_cons, hh]

theorem run_bundle (ts : List Transition) (a a' : IncidentAnchor)
    (hrun : run a ts = some a')
    (hinv : a.bundle_root_hash = a.compute_bundle_root) :
    a'.bundle_root_hash = a'.compute_bundle_root := by
  induction ts generalizing a with
  | nil =>
    simp only [run, Option.some.injEq] at hrun
    subst hrun
    exact hinv
  | cons t ts ih =>
    simp only [run] at hrun
    cases hres : (applyIx t a).result with
    | some e => rw [hres] at hrun; simp at hrun
    | none =>
      rw [hres] at hrun
      exact ih (applyIx t a).anchor hrun (applyIx_ok_bundle t a hres hinv)

theorem run_unapproved (ts : List Transition) (a a' : IncidentAnchor)
    (hrun : run a ts = some a')
    (hinv : a.requires_approval = false ∧ a.supervisor = none ∧
      a.approval_timestamp = none) :
    a'.requires_approval = false ∧ a'.supervisor = none ∧
      a'.approval_timestamp = none := by
  induction ts generalizing a with
  | nil =>
    simp only [run, Option.some.injEq] at hrun
    subst hrun
    exact hinv
  | cons t ts ih =>
    simp only [run] at hrun
    cases hres : (applyIx t a).result with
    | some e => rw [hres] at hrun; simp at hrun
    | none =>
      rw [hres] at hrun
      exact ih (applyIx t a).anchor hrun (applyIx_ok_unapproved t a hres hinv)

/-! ### Concrete fixtures for witnesses -/

/-- A concrete well-formed anchor, as produced by a frontline creation, used
to exercise the handlers on explicit inputs. -/
def sampleAnchor : IncidentAnchor :=
  { operator := 1
    incident_id := 42
    incident_core_hash := Hash32.raw 1
    evidence_set_hash := Hash32.raw 2
    contradictions_hash := Hash32.raw 3
    trust_receipt_hash := Hash32.raw 4
    operator_decisions_hash := Hash32.raw 5
    timeline_hash := Hash32.raw 6
    bundle_root_hash := Hash32.sha6 (Hash32.raw 1) (Hash32.raw 2)
      (Hash32.raw 3) (Hash32.raw 4) (Hash32.raw 5) (Hash32.raw 6)
    event_chain_head := Hash32.raw 10
    event_count := 1
    operator_role := 0
    supervisor := none
    requires_approval := true
    approval_timestamp := none
    packet_uri := [97, 98]
    created_at := 100
    updated_at := 100
    bump := 255 }

/-- `sampleAnchor` with the event counter at `u32::MAX`. -/
def sampleAnchorMax : IncidentAnchor :=
  { sampleAnchor with event_count := UINT32_MAX }

/-- The anchor returned by a concrete supervisor-role creation. -/
def supCreated : IncidentAnchor :=
  { operator := 1
    incident_id := 42
    incident_core_hash := Hash32.raw 1
    evidence_set_hash := Hash32.raw 2
    contradictions_hash := Hash32.raw 3
    trust_receipt_hash := Hash32.raw 4
    operator_decisions_hash := Hash32.raw 5
    timeline_hash := Hash32.raw 6
    bundle_root_hash := Hash32.sha6 (Hash32.raw 1) (Hash32.raw 2)
      (Hash32.raw 3) (Hash32.raw 4) (Hash32.raw 5) (Hash32.raw 6)
    event_chain_head := Hash32.raw 10
    event_count := 1
    operator_role := 1
    supervisor := none
    requires_approval := false
    approval_timestamp := none
    packet_uri := [97]
    created_at := 100
    updated_at := 100
    bump := 255 }

/-- A concrete two-instruction trace: one append, one artifact update. -/
def sampleTrace : List Transition :=
  [.appendEvent 1 101 (Hash32.raw 11),
   .updateArtifacts 1 102 none (some (Hash32.raw 99)) none none none none
     (Hash32.raw 12) none]

/-! ### Claim theorems -/

/-- C3: every successful creation returns a record whose chain head is the
first event hash itself (no `ChainStep` applied), whose event count is 1,
whose bundle root is the digest of the six supplied artifact hashes in
canonical order, whose `requires_approval` is true exactly when the declared
role is Frontline (value 0), and whose approver identity and approval
timestamp are unset. -/
theorem create_anchor_spec (caller : Nat) (now : Int)
    (bump incident_id : Nat) (h1 h2 h3 h4 h5 h6 e0 : Hash32) (role : Nat)
    (uri : List Nat) (a : IncidentAnchor) (ev : AnchorEvent)
    (hcreate : create_anchor caller now bump incident_id h1 h2 h3 h4 h5 h6
      e0 role uri = .ok (a, ev)) :
    a.event_chain_head = e0 ∧ a.event_count = 1 ∧
      a.bundle_root_hash = Hash32.sha6 h1 h2 h3 h4 h5 h6 ∧
      (a.requires_approval = true ↔ role = 0) ∧
      a.supervisor = none ∧ a.approval_timestamp = none := by
  obtain ⟨ha, -, -⟩ :=
    create_anchor_inv caller now bump incident_id h1 h2 h3 h4 h5 h6 e0 role
      uri a ev hcreate
  subst ha
  simp

/-- C3 witness: a concrete frontline creation, evaluated. -/
theorem create_anchor_spec_witness :
    create_anchor 1 100 255 42 (Hash32.raw 1) (Hash32.raw 2) (Hash32.raw 3)
        (Hash32.raw 4) (Hash32.raw 5) (Hash32.raw 6) (Hash32.raw 10) 0
        [97, 98] =
      .ok (sampleAnchor,
        .AnchorCreated 42 1 0
          (Hash32.sha6 (Hash32.raw 1) (Hash32.raw 2) (Hash32.raw 3)
            (Hash32.raw 4) (Hash32.raw 5) (Hash32.raw 6)) [97, 98] 100) ∧
      sampleAnchor.event_chain_head = Hash32.raw 10 ∧
      sampleAnchor.event_count = 1 ∧
      sampleAnchor.bundle_root_hash =
        Hash32.sha6 (Hash32.raw 1) (Hash32.raw 2) (Hash32.raw 3)
          (Hash32.raw 4) (Hash32.raw 5) (Hash32.raw 6) ∧
      (sampleAnchor.requires_approval = true ↔ (0 : Nat) = 0) ∧
      sampleAnchor.supervisor = none ∧
      sampleAnchor.approval_timestamp = none := by
  refine ⟨by decide, ?_⟩
  exact create_anchor_spec 1 100 255 42 (Hash32.raw 1) (Hash32.raw 2)
    (Hash32.raw 3) (Hash32.raw 4) (Hash32.raw 5) (Hash32.raw 6)
    (Hash32.raw 10) 0 [97, 98] sampleAnchor
    (.AnchorCreated 42 1 0
      (Hash32.sha6 (Hash32.raw 1) (Hash32.raw 2) (Hash32.raw 3)
        (Hash32.raw 4) (Hash32.raw 5) (Hash32.raw 6)) [97, 98] 100)
    (by decide)

/-- C4: an authorized append on a record below the 32-bit counter maximum
commits `event_chain_head = Digest(prev_head ‖ event_hash)`, increments
`event_count` by exactly 1 and stamps `updated_at`; at the counter maximum
it fails with `EventCountOverflow` and the committed record is unchanged
(no silent wraparound). -/
theorem append_event_spec (caller : Nat) (now : Int) (event_hash : Hash32)
    (a : IncidentAnchor) (hauth : caller = a.operator) :
    (a.event_count < UINT32_MAX →
      runStep (.appendEvent caller now event_hash) a =
        ({ a with
            event_chain_head := Hash32.sha2 a.event_chain_head event_hash
            event_count := a.event_count + 1
            updated_at := now },
          [.EventAppended a.incident_id event_hash
            (Hash32.sha2 a.event_chain_head event_hash)
            (a.event_count + 1) now], none)) ∧
    (a.event_count = UINT32_MAX →
      runStep (.appendEvent caller now event_hash) a =
        (a, [], some .EventCountOverflow)) := by
  constructor
  · intro hcnt
    simp [runStep, applyIx,
      append_event_ix_ok caller now event_hash a hauth hcnt]
  · intro hcnt
    simp [runStep, applyIx,
      append_event_ix_overflow caller now event_hash a hauth hcnt]

/-- C4 witness: a concrete append below the bound and one at `u32::MAX`. -/
theorem append_event_spec_witness :
    (sampleAnchor.event_count < UINT32_MAX ∧
      runStep (.appendEvent 1 101 (Hash32.raw 11)) sampleAnchor =
        ({ sampleAnchor with
            event_chain_head := Hash32.sha2 (Hash32.raw 10) (Hash32.raw 11)
            event_count := 2
            updated_at := 101 },
          [.EventAppended 42 (Hash32.raw 11)
            (Hash32.sha2 (Hash32.raw 10) (Hash32.raw 11)) 2 101], none)) ∧
    (sampleAnchorMax.event_count = UINT32_MAX ∧
      runStep (.appendEvent 1 101 (Hash32.raw 11)) sampleAnchorMax =
        (sampleAnchorMax, [], some .EventCountOverflow)) := by
  constructor
  · exact ⟨by decide,
      (append_event_spec 1 101 (Hash32.raw 11) sampleAnchor rfl).1
        (by decide)⟩
  · exact ⟨by decide,
      (append_event_spec 1 101 (Hash32.raw 11) sampleAnchorMax rfl).2
        (by decide)⟩

/-- C5: an authorized artifact update with any subset of the six hashes
supplied and a mandatory change-event hash overwrites exactly the supplied
fields (each unsupplied field keeps its prior value, via `Option.getD`),
recomputes the bundle root over the post-update six hashes, advances the
chain head by one `ChainStep` with the change-event hash, and increments
`event_count` by exactly 1. -/
theorem update_artifacts_spec (caller : Nat) (now : Int)
    (c e k r d l : Option Hash32) (ch : Hash32) (uri : Option (List Nat))
    (a : IncidentAnchor) (hauth : caller = a.operator)
    (huri : ∀ u ∈ uri, u.length ≤ MAX_URI_LEN)
    (hcnt : a.event_count < UINT32_MAX) :
    runStep (.updateArtifacts caller now c e k r d l ch uri) a =
      ({ a with
          incident_core_hash := c.getD a.incident_core_hash
          evidence_set_hash := e.getD a.evidence_set_hash
          contradictions_hash := k.getD a.contradictions_hash
          trust_receipt_hash := r.getD a.trust_receipt_hash
          operator_decisions_hash := d.getD a.operator_decisions_hash
          timeline_hash := l.getD a.timeline_hash
          packet_uri := uri.getD a.packet_uri
          bundle_root_hash := Hash32.sha6 (c.getD a.incident_core_hash)
            (e.getD a.evidence_set_hash) (k.getD a.contradictions_hash)
            (r.getD a.trust_receipt_hash) (d.getD a.operator_decisions_hash)
            (l.getD a.timeline_hash)
          event_chain_head := Hash32.sha2 a.event_chain_head ch
          event_count := a.event_count + 1
          updated_at := now },
        [.ArtifactsUpdated a.incident_id caller a.bundle_root_hash
          (Hash32.sha6 (c.getD a.incident_core_hash)
            (e.getD a.evidence_set_hash) (k.getD a.contradictions_hash)
            (r.getD a.trust_receipt_hash) (d.getD a.operator_decisions_hash)
            (l.getD a.timeline_hash))
          (uri.getD a.packet_uri) now], none) := by
  simp [runStep, applyIx,
    update_artifacts_ix_ok caller now c e k r d l ch uri a hauth huri hcnt]

/-- C5 witness: supplying only the evidence hash changes only that field
among the six, the bundle root is recomputed over the new evidence hash plus
the five unchanged hashes, and the count goes from 1 to 2. -/
theorem update_artifacts_spec_witness :
    (∀ u ∈ (none : Option (List Nat)), u.length ≤ MAX_URI_LEN) ∧
      sampleAnchor.event_count < UINT32_MAX ∧
      runStep (.updateArtifacts 1 102 none (some (Hash32.raw 99)) none none
        none none (Hash32.raw 12) none) sampleAnchor =
        ({ sampleAnchor with
            evidence_set_hash := Hash32.raw 99
            bundle_root_hash := Hash32.sha6 (Hash32.raw 1) (Hash32.raw 99)
              (Hash32.raw 3) (Hash32.raw 4) (Hash32.raw 5) (Hash32.raw 6)
            event_chain_head := Hash32.sha2 (Hash32.raw 10) (Hash32.raw 12)
            event_count := 2
            updated_at := 102 },
          [.ArtifactsUpdated 42 1
            (Hash32.sha6 (Hash32.raw 1) (Hash32.raw 2) (Hash32.raw 3)
              (Hash32.raw 4) (Hash32.raw 5) (Hash32.raw 6))
            (Hash32.sha6 (Hash32.raw 1) (Hash32.raw 99) (Hash32.raw 3)
              (Hash32.raw 4) (Hash32.raw 5) (Hash32.raw 6))
            [97, 98] 102], none) := by
  refine ⟨by decide, by decide, ?_⟩
  have h := update_artifacts_spec 1 102 none (some (Hash32.raw 99)) none
    none none none (Hash32.raw 12) none sampleAnchor rfl
    (by decide) (by decide)
  simpa using h

/-- C6: an append-event or update-artifacts call from an identity other
than the record's operator fails with `Unauthorized` and even the in-memory
account is left field-for-field unchanged (the `has_one` constraint runs
before the handler body). -/
theorem unauthorized_rejected (caller : Nat) (now : Int)
    (event_hash : Hash32) (c e k r d l : Option Hash32) (ch : Hash32)
    (uri : Option (List Nat)) (a : IncidentAnchor)
    (hne : caller ≠ a.operator) :
    append_event_ix caller now event_hash a =
      ⟨a, some .Unauthorized, []⟩ ∧
    update_artifacts_ix caller now c e k r d l ch uri a =
      ⟨a, some .Unauthorized, []⟩ :=
  ⟨append_event_ix_unauthorized caller now event_hash a hne,
   update_artifacts_ix_unauthorized caller now c e k r d l ch uri a hne⟩

/-- C6 witness: a concrete non-operator caller is rejected by both
instructions with the record untouched. -/
theorem unauthorized_rejected_witness :
    (99 : Nat) ≠ sampleAnchor.operator ∧
    append_event_ix 99 101 (Hash32.raw 11) sampleAnchor =
      ⟨sampleAnchor, some .Unauthorized, []⟩ ∧
    update_artifacts_ix 99 102 none (some (Hash32.raw 99)) none none none
      none (Hash32.raw 12) none sampleAnchor =
      ⟨sampleAnchor, some .Unauthorized, []⟩ :=
  ⟨by decide,
   unauthorized_rejected 99 101 (Hash32.raw 11) none (some (Hash32.raw 99))
     none none none none (Hash32.raw 12) none sampleAnchor (by decide)⟩

/-- C7: approve succeeds exactly when `requires_approval` is true, setting
the approver to the caller, clearing `requires_approval`, and stamping
`approval_timestamp` and `updated_at`; otherwise it fails with
`AlreadyApproved` leaving the record unchanged — so `requires_approval`
flips from true to false at most once. -/
theorem approve_anchor_spec (caller : Nat) (now : Int)
    (a : IncidentAnchor) :
    (a.requires_approval = true →
      approve_anchor_ix caller now a =
        ⟨{ a with
            supervisor := some caller
            requires_approval := false
            approval_timestamp := some now
            updated_at := now },
          none, [.AnchorApproved a.incident_id a.operator caller now]⟩) ∧
    (a.requires_approval = false →
      approve_anchor_ix caller now a = ⟨a, some .AlreadyApproved, []⟩) :=
  ⟨fun h => approve_anchor_ix_ok caller now a h,
   fun h => approve_anchor_ix_already caller now a h⟩

/-- C7 witness: a concrete pending record is approved once; a second
approve fails with `AlreadyApproved` and changes nothing. -/
theorem approve_anchor_spec_witness :
    (sampleAnchor.requires_approval = true ∧
      approve_anchor_ix 7 103 sampleAnchor =
        ⟨{ sampleAnchor with
            supervisor := some 7
            requires_approval := false
            approval_timestamp := some 103
            updated_at := 103 },
          none, [.AnchorApproved 42 1 7 103]⟩) ∧
    (supCreated.requires_approval = false ∧
      approve_anchor_ix 7 103 supCreated =
        ⟨supCreated, some .AlreadyApproved, []⟩) :=
  ⟨⟨by decide, (approve_anchor_spec 7 103 sampleAnchor).1 (by decide)⟩,
   ⟨by decide, (approve_anchor_spec 7 103 supCreated).2 (by decide)⟩⟩

/-- C1: after a successful creation followed by any all-successful sequence
of append-event and update-artifacts instructions, the stored chain head is
the left fold of `ChainStep` over the appended event hashes (including the
change-event hashes of updates), in append order, starting from the initial
event hash supplied at creation. -/
theorem chain_replay (caller : Nat) (now : Int) (bump incident_id : Nat)
    (h1 h2 h3 h4 h5 h6 e0 : Hash32) (role : Nat) (uri : List Nat)
    (a0 a : IncidentAnchor) (ev : AnchorEvent) (ts : List Transition)
    (hcreate : create_anchor caller now bump incident_id h1 h2 h3 h4 h5 h6
      e0 role uri = .ok (a0, ev))
    (hmut : ∀ t ∈ ts, (Transition.eventHash t).isSome = true)
    (hrun : run a0 ts = some a) :
    a.event_chain_head =
      (ts.filterMap Transition.eventHash).foldl chainStep e0 := by
  obtain ⟨ha0, -, -⟩ :=
    create_anchor_inv caller now bump incident_id h1 h2 h3 h4 h5 h6 e0 role
      uri a0 ev hcreate
  have h := run_head_fold ts a0 a hmut hrun
  rw [h, ha0]

/-- The record after running `sampleTrace` from `sampleAnchor`. -/
def traceResult : IncidentAnchor :=
  (run sampleAnchor sampleTrace).get (by decide)

/-- C1 witness: a concrete creation and two-instruction trace, replayed. -/
theorem chain_replay_witness :
    create_anchor 1 100 255 42 (Hash32.raw 1) (Hash32.raw 2) (Hash32.raw 3)
        (Hash32.raw 4) (Hash32.raw 5) (Hash32.raw 6) (Hash32.raw 10) 0
        [97, 98] =
      .ok (sampleAnchor,
        .AnchorCreated 42 1 0
          (Hash32.sha6 (Hash32.raw 1) (Hash32.raw 2) (Hash32.raw 3)
            (Hash32.raw 4) (Hash32.raw 5) (Hash32.raw 6)) [97, 98] 100) ∧
    (∀ t ∈ sampleTrace, (Transition.eventHash t).isSome = true) ∧
    run sampleAnchor sampleTrace = some traceResult ∧
    traceResult.event_chain_head =
      (sampleTrace.filterMap Transition.eventHash).foldl chainStep
        (Hash32.raw 10) := by
  refine ⟨by decide, by decide, by decide, ?_⟩
  exact chain_replay 1 100 255 42 (Hash32.raw 1) (Hash32.raw 2)
    (Hash32.raw 3) (Hash32.raw 4) (Hash32.raw 5) (Hash32.raw 6)
    (Hash32.raw 10) 0 [97, 98] sampleAnchor traceResult
    (.AnchorCreated 42 1 0
      (Hash32.sha6 (Hash32.raw 1) (Hash32.raw 2) (Hash32.raw 3)
        (Hash32.raw 4) (Hash32.raw 5) (Hash32.raw 6)) [97, 98] 100)
    sampleTrace (by decide) (by decide) (by decide)

/-- C2: in every record reachable from a successful creation by successful
instructions, `bundle_root_hash` equals the digest of the record's current
six artifact hashes concatenated in the fixed canonical order core,
evidence, contradictions, trust-receipt, decisions, timeline. -/
theorem bundle_root_invariant (caller : Nat) (now : Int)
    (bump incident_id : Nat) (h1 h2 h3 h4 h5 h6 e0 : Hash32) (role : Nat)
    (uri : List Nat) (a0 a : IncidentAnchor) (ev : AnchorEvent)
    (ts : List Transition)
    (hcreate : create_anchor caller now bump incident_id h1 h2 h3 h4 h5 h6
      e0 role uri = .ok (a0, ev))
    (hrun : run a0 ts = some a) :
    a.bundle_root_hash =
      Hash32.sha6 a.incident_core_hash a.evidence_set_hash
        a.contradictions_hash a.trust_receipt_hash
        a.operator_decisions_hash a.timeline_hash := by
  obtain ⟨ha0, -, -⟩ :=
    create_anchor_inv caller now bump incident_id h1 h2 h3 h4 h5 h6 e0 role
      uri a0 ev hcreate
  have h0 : a0.bundle_root_hash = a0.compute_bundle_root := by
    rw [ha0]; rfl
  simpa [IncidentAnchor.compute_bundle_root] using
    run_bundle ts a0 a hrun h0

/-- A concrete trace containing all three instruction kinds. -/
def sampleTrace2 : List Transition :=
  [.appendEvent 1 101 (Hash32.raw 11), .approveAnchor 7 103,
   .updateArtifacts 1 104 none (some (Hash32.raw 99)) none none none none
     (Hash32.raw 12) none]

/-- The record after running `sampleTrace2` from `sampleAnchor`. -/
def traceResult2 : IncidentAnchor :=
  (run sampleAnchor sampleTrace2).get (by decide)

/-- C2 witness: the invariant evaluated on a concrete creation followed by
an append, an approval and an artifact update. -/
theorem bundle_root_invariant_witness :
    create_anchor 1 100 255 42 (Hash32.raw 1) (Hash32.raw 2) (Hash32.raw 3)
        (Hash32.raw 4) (Hash32.raw 5) (Hash32.raw 6) (Hash32.raw 10) 0
        [97, 98] =
      .ok (sampleAnchor,
        .AnchorCreated 42 1 0
          (Hash32.sha6 (Hash32.raw 1) (Hash32.raw 2) (Hash32.raw 3)
            (Hash32.raw 4) (Hash32.raw 5) (Hash32.raw 6)) [97, 98] 100) ∧
    run sampleAnchor sampleTrace2 = some traceResult2 ∧
    traceResult2.bundle_root_hash =
      Hash32.sha6 traceResult2.incident_core_hash
        traceResult2.evidence_set_hash traceResult2.contradictions_hash
        traceResult2.trust_receipt_hash
        traceResult2.operator_decisions_hash
        traceResult2.timeline_hash := by
  refine ⟨by decide, by decide, ?_⟩
  exact bundle_root_invariant 1 100 255 42 (Hash32.raw 1) (Hash32.raw 2)
    (Hash32.raw 3) (Hash32.raw 4) (Hash32.raw 5) (Hash32.raw 6)
    (Hash32.raw 10) 0 [97, 98] sampleAnchor traceResult2
    (.AnchorCreated 42 1 0
      (Hash32.sha6 (Hash32.raw 1) (Hash32.raw 2) (Hash32.raw 3)
        (Hash32.raw 4) (Hash32.raw 5) (Hash32.raw 6)) [97, 98] 100)
    sampleTrace2 (by decide) (by decide)

/-- C8 counterexample: an `update_artifacts` call that fails with
`EventCountOverflow` has already overwritten the supplied evidence hash in
the in-memory account when the failing check runs, so it is not the case
that every precondition check is performed before any field mutation. -/
theorem overflow_check_after_mutation :
    (update_artifacts_ix 1 105 none (some (Hash32.raw 99)) none none none
      none (Hash32.raw 12) none sampleAnchorMax).result =
        some .EventCountOverflow ∧
    ¬ (update_artifacts_ix 1 105 none (some (Hash32.raw 99)) none none none
      none (Hash32.raw 12) none sampleAnchorMax).anchor.evidence_set_hash =
        sampleAnchorMax.evidence_set_hash := by
  decide

/-- C8 (amended): whenever an instruction returns an error, the committed
record equals the pre-state — the runtime discards any in-memory mutations
— and no notification payload is emitted; there is no partial-success
state. -/
theorem error_rollback (t : Transition) (a : IncidentAnchor)
    (err : SatorAnchorError) (herr : (applyIx t a).result = some err) :
    runStep t a = (a, [], some err) := by
  simp [runStep, herr]

/-- C8 witness: a concrete failing instruction commits nothing. -/
theorem error_rollback_witness :
    (applyIx (.approveAnchor 7 200) supCreated).result =
      some .AlreadyApproved ∧
    runStep (.approveAnchor 7 200) supCreated =
      (supCreated, [], some .AlreadyApproved) :=
  ⟨by decide,
   error_rollback (.approveAnchor 7 200) supCreated .AlreadyApproved
     (by decide)⟩

/-- C9: creation fails with `PacketUriTooLong` exactly when the supplied
URI exceeds the 200-byte bound, and an authorized artifact update fails
with `PacketUriTooLong` exactly when it supplies a new URI exceeding that
bound; a URI within the bound is never rejected for length. -/
theorem uri_too_long_iff (creator : Nat) (now : Int)
    (bump incident_id : Nat) (h1 h2 h3 h4 h5 h6 e0 : Hash32) (role : Nat)
    (uri : List Nat) (caller : Nat) (now2 : Int)
    (c e k r d l : Option Hash32) (ch : Hash32) (uriOpt : Option (List Nat))
    (a : IncidentAnchor) (hauth : caller = a.operator) :
    (create_anchor creator now bump incident_id h1 h2 h3 h4 h5 h6 e0 role
        uri = .error .PacketUriTooLong ↔ MAX_URI_LEN < uri.length) ∧
    ((update_artifacts_ix caller now2 c e k r d l ch uriOpt a).result =
        some .PacketUriTooLong ↔
      ∃ u, uriOpt = some u ∧ MAX_URI_LEN < u.length) := by
  constructor
  · by_cases hu : uri.length ≤ MAX_URI_LEN
    · by_cases hr : role ≤ 2 <;>
        simp [create_anchor, hu, hr]
    · simp [create_anchor, hu]
      omega
  · cases uriOpt with
    | none =>
      by_cases hcnt : a.event_count + 1 ≤ UINT32_MAX <;>
        simp [update_artifacts_ix, update_artifacts_handler,
          update_artifacts_body, checked_add_u32, hauth, hcnt]
    | some u =>
      by_cases hu : u.length ≤ MAX_URI_LEN
      · by_cases hcnt : a.event_count + 1 ≤ UINT32_MAX <;>
          simp [update_artifacts_ix, update_artifacts_handler,
            update_artifacts_body, checked_add_u32, hauth, hcnt, hu]
      · simp [update_artifacts_ix, update_artifacts_handler, hauth, hu]
        omega

/-- C9 witness: a 201-byte URI is rejected by creation and by an authorized
update; the update iff is evaluated at the same concrete input. -/
theorem uri_too_long_iff_witness :
    (1 : Nat) = sampleAnchor.operator ∧
    (create_anchor 1 100 255 42 (Hash32.raw 1) (Hash32.raw 2)
        (Hash32.raw 3) (Hash32.raw 4) (Hash32.raw 5) (Hash32.raw 6)
        (Hash32.raw 10) 0 (List.replicate 201 97) =
          .error .PacketUriTooLong ↔
      MAX_URI_LEN < (List.replicate 201 97).length) ∧
    ((update_artifacts_ix 1 102 none none none none none none
        (Hash32.raw 12) (some (List.replicate 201 97))
        sampleAnchor).result = some .PacketUriTooLong ↔
      ∃ u, some (List.replicate 201 97) = some u ∧
        MAX_URI_LEN < u.length) := by
  refine ⟨rfl, ?_⟩
  exact uri_too_long_iff 1 100 255 42 (Hash32.raw 1) (Hash32.raw 2)
    (Hash32.raw 3) (Hash32.raw 4) (Hash32.raw 5) (Hash32.raw 6)
    (Hash32.raw 10) 0 (List.replicate 201 97) 1 102 none none none none
    none none (Hash32.raw 12) (some (List.replicate 201 97)) sampleAnchor
    rfl

/-- C10: a record created with role Supervisor (1) or Admin (2) has
`requires_approval` false in every reachable state, its supervisor and
approval timestamp stay unset, and every approve call on any reachable
state fails with `AlreadyApproved` leaving the record unchanged. -/
theorem non_frontline_never_approved (caller : Nat) (now : Int)
    (bump incident_id : Nat) (h1 h2 h3 h4 h5 h6 e0 : Hash32) (role : Nat)
    (uri : List Nat) (a0 a : IncidentAnchor) (ev : AnchorEvent)
    (ts : List Transition) (hrole : role = 1 ∨ role = 2)
    (hcreate : create_anchor caller now bump incident_id h1 h2 h3 h4 h5 h6
      e0 role uri = .ok (a0, ev))
    (hrun : run a0 ts = some a) :
    a.requires_approval = false ∧ a.supervisor = none ∧
      a.approval_timestamp = none ∧
      ∀ approver t2, approve_anchor_ix approver t2 a =
        ⟨a, some .AlreadyApproved, []⟩ := by
  obtain ⟨ha0, -, -⟩ :=
    create_anchor_inv caller now bump incident_id h1 h2 h3 h4 h5 h6 e0 role
      uri a0 ev hcreate
  have h0 : a0.requires_approval = false ∧ a0.supervisor = none ∧
      a0.approval_timestamp = none := by
    rw [ha0]
    rcases hrole with h | h <;> subst h <;> simp
  have hinv := run_unapproved ts a0 a hrun h0
  exact ⟨hinv.1, hinv.2.1, hinv.2.2,
    fun ap t2 => approve_anchor_ix_already ap t2 a hinv.1⟩

/-- The record after running `sampleTrace` from `supCreated`. -/
def supTraceResult : IncidentAnchor :=
  (run supCreated sampleTrace).get (by decide)

/-- C10 witness: a concrete supervisor-role creation, run through a trace;
a concrete approve on the result is rejected. -/
theorem non_frontline_never_approved_witness :
    ((1 : Nat) = 1 ∨ (1 : Nat) = 2) ∧
    create_anchor 1 100 255 42 (Hash32.raw 1) (Hash32.raw 2) (Hash32.raw 3)
        (Hash32.raw 4) (Hash32.raw 5) (Hash32.raw 6) (Hash32.raw 10) 1
        [97] =
      .ok (supCreated,
        .AnchorCreated 42 1 1
          (Hash32.sha6 (Hash32.raw 1) (Hash32.raw 2) (Hash32.raw 3)
            (Hash32.raw 4) (Hash32.raw 5) (Hash32.raw 6)) [97] 100) ∧
    run supCreated sampleTrace = some supTraceResult ∧
    supTraceResult.requires_approval = false ∧
    supTraceResult.supervisor = none ∧
    supTraceResult.approval_timestamp = none ∧
    approve_anchor_ix 7 200 supTraceResult =
      ⟨supTraceResult, some .AlreadyApproved, []⟩ := by
  refine ⟨Or.inl rfl, by decide, by decide, ?_⟩
  have h := non_frontline_never_approved 1 100 255 42 (Hash32.raw 1)
    (Hash32.raw 2) (Hash32.raw 3) (Hash32.raw 4) (Hash32.raw 5)
    (Hash32.raw 6) (Hash32.raw 10) 1 [97] supCreated supTraceResult
    (.AnchorCreated 42 1 1
      (Hash32.sha6 (Hash32.raw 1) (Hash32.raw 2) (Hash32.raw 3)
        (Hash32.raw 4) (Hash32.raw 5) (Hash32.raw 6)) [97] 100)
    sampleTrace (Or.inl rfl) (by decide) (by decide)
  exact ⟨h.1, h.2.1, h.2.2.1, h.2.2.2 7 200⟩

end SatorOps
